import Mathlib

/-!
Verification development for the farmer / news-vendor two-stage
stochastic-programming examples.  The Python sources build Pyomo models;
here each model is embedded shallowly: a model is a record holding its
variable index lists, its objective as a rational-valued function of a
variable assignment, and its constraint list, whose members are
interpreted as propositions over assignments.  All numeric data is
embedded in the rationals.
-/

namespace StochFarm

/-! ## Problem template
These values are defined identically in
examples/farmer-extensive-form.py, mpi-sppy/farmer-3-scenarios.py and
mpi-sppy/farmer-n-scenarios-PH.py (the fields that, per the sources, do
not change regardless of scenario). -/

def planting_crops : List String := ["wheat", "corn", "beets"]

def selling_crops : List String :=
  ["wheat", "corn", "beets_favorable", "beets_unfavorable"]

def purchasing_crops : List String := ["wheat", "corn"]

def required_crops : List String := purchasing_crops

def total_acres : ℚ := 500

def planting_cost (c : String) : ℚ :=
  if c = "wheat" then 150 else if c = "corn" then 230 else
  if c = "beets" then 260 else 0

def selling_price (c : String) : ℚ :=
  if c = "wheat" then 170 else if c = "corn" then 150 else
  if c = "beets_favorable" then 36 else
  if c = "beets_unfavorable" then 10 else 0

def min_requirement (c : String) : ℚ :=
  if c = "wheat" then 200 else if c = "corn" then 240 else 0

def purchase_price (c : String) : ℚ :=
  if c = "wheat" then 238 else if c = "corn" then 210 else 0

def beets_quota : ℚ := 6000

/-- Fair-weather base yields in tons per acre: the factors 2.5, 3 and 20
that every source file multiplies by the weather multiplier. -/
def base_yield (c : String) : ℚ :=
  if c = "wheat" then 5/2 else if c = "corn" then 3 else
  if c = "beets" then 20 else 0

/-- The weather-label lookup of Farmer.__init__: good maps to 1.2, fair
to 1 and bad to 0.8; any other label leaves the multiplier unassigned,
which in the Python source is a crash (unbound local) and is embedded as
none. -/
def predicted_yield (weather : String) : Option ℚ :=
  if weather = "good" then some (6/5) else
  if weather = "fair" then some 1 else
  if weather = "bad" then some (4/5) else none

/-! ## Deterministic (single-scenario) model -/

/-- An assignment of values to the deterministic-model variables
x (acres planted), w (tons sold), y (tons purchased), each indexed by a
crop name string as in the Pyomo source. -/
structure DetAssign where
  x : String → ℚ
  w : String → ℚ
  y : String → ℚ

/-- The constraint components attached to the deterministic model, in
the order build_deterministic_model declares them. -/
inductive DetCon where
  | total_acreage_allowed : DetCon
  | minimum_requirement (crop : String) : DetCon
  | sugar_beet_mass_balance : DetCon
  | sugar_beet_quota : DetCon
deriving DecidableEq, Repr

/-- A deterministic model: variable index lists, objective, constraint
list.  Mirrors the Pyomo ConcreteModel built by
Farmer.build_deterministic_model. -/
structure DetModel where
  var_x : List String
  var_w : List String
  var_y : List String
  obj : DetAssign → ℚ
  cons : List DetCon

/-- The Farmer instance of examples/farmer-extensive-form.py in its
single-weather (deterministic) mode: one weather string, a flat
crop-yield mapping, the scenario-independent template fields, and the
slot that build_deterministic_model fills. -/
structure Farmer where
  weathers : String
  crop_yield : String → ℚ
  total_acres : ℚ
  planting_cost : String → ℚ
  selling_price : String → ℚ
  min_requirement : String → ℚ
  purchase_price : String → ℚ
  beets_quota : ℚ
  deterministic_model : Option DetModel := none

/-- Farmer.__init__ with a single weather string (lines 27 to 72 of
examples/farmer-extensive-form.py): look up the yield multiplier, fail
if the label is unrecognized, and record realized yields together with
the fixed template. -/
def Farmer.init (weather_types : String) : Option Farmer :=
  (predicted_yield weather_types).map fun m =>
    { weathers := weather_types
      crop_yield := fun c => base_yield c * m
      total_acres := StochFarm.total_acres
      planting_cost := StochFarm.planting_cost
      selling_price := StochFarm.selling_price
      min_requirement := StochFarm.min_requirement
      purchase_price := StochFarm.purchase_price
      beets_quota := StochFarm.beets_quota }

/-- The model constructed by Farmer.build_deterministic_model (lines 75
to 122): objective planting cost minus selling revenue plus purchasing
cost, and the four constraint components. -/
def deterministic_model_of (f : Farmer) : DetModel :=
  { var_x := planting_crops
    var_w := selling_crops
    var_y := purchasing_crops
    obj := fun a =>
      (planting_crops.map (fun c => a.x c * f.planting_cost c)).sum
      - (selling_crops.map (fun c => a.w c * f.selling_price c)).sum
      + (purchasing_crops.map (fun c => a.y c * f.purchase_price c)).sum
    cons := [DetCon.total_acreage_allowed]
      ++ required_crops.map DetCon.minimum_requirement
      ++ [DetCon.sugar_beet_mass_balance, DetCon.sugar_beet_quota] }

/-- Interpretation of one deterministic-model constraint as a
proposition over an assignment, exactly as each Pyomo constraint rule
states it. -/
def DetCon.holds (f : Farmer) (a : DetAssign) : DetCon → Prop
  | DetCon.total_acreage_allowed =>
      (planting_crops.map (fun c => a.x c)).sum ≤ f.total_acres
  | DetCon.minimum_requirement c =>
      a.x c * f.crop_yield c + a.y c - a.w c ≥ f.min_requirement c
  | DetCon.sugar_beet_mass_balance =>
      a.w "beets_favorable" + a.w "beets_unfavorable"
        ≤ f.crop_yield "beets" * a.x "beets"
  | DetCon.sugar_beet_quota =>
      a.w "beets_favorable" ≤ f.beets_quota

/-- Feasibility for the deterministic model: every variable of each
declared family is nonnegative (the Pyomo NonNegativeReals domain) and
every constraint of the model holds. -/
def detFeasible (f : Farmer) (a : DetAssign) : Prop :=
  (∀ c ∈ (deterministic_model_of f).var_x, 0 ≤ a.x c) ∧
  (∀ c ∈ (deterministic_model_of f).var_w, 0 ≤ a.w c) ∧
  (∀ c ∈ (deterministic_model_of f).var_y, 0 ≤ a.y c) ∧
  (∀ con ∈ (deterministic_model_of f).cons, DetCon.holds f a con)

/-- Farmer.build_deterministic_model as a state transformer on the
instance: it attaches the newly built model and touches nothing else. -/
def Farmer.build_deterministic_model (f : Farmer) : Farmer :=
  { f with deterministic_model := some (deterministic_model_of f) }

/-! ## Extensive-form (multi-scenario) model -/

/-- An assignment of values to the extensive-form variables: x is the
shared first-stage family indexed by crop, while w and y are indexed by
a pair of a weather label and a crop name, matching the two-index Pyomo
variables of build_extensive_form_model. -/
structure EFAssign where
  x : String → ℚ
  w : String × String → ℚ
  y : String × String → ℚ

/-- The constraint components attached to the extensive-form model, in
the order build_extensive_form_model declares them. -/
inductive EFCon where
  | total_acreage_allowed : EFCon
  | minimum_requirement (weather crop : String) : EFCon
  | sugar_beet_mass_balance (weather : String) : EFCon
  | sugar_beet_quota (weather : String) : EFCon
deriving DecidableEq, Repr

/-- An extensive-form model: index lists of the three variable
families, the objective, and the constraint list. -/
structure EFModel where
  var_x : List String
  var_w : List (String × String)
  var_y : List (String × String)
  obj : EFAssign → ℚ
  cons : List EFCon

/-- The Farmer instance of examples/farmer-extensive-form.py in its
list-of-weathers (stochastic) mode: the weather list, a nested
crop-yield mapping keyed first by weather, the template fields, and the
slot that build_extensive_form_model fills. -/
structure FarmerScen where
  weathers : List String
  crop_yield : String → String → ℚ
  total_acres : ℚ
  planting_cost : String → ℚ
  selling_price : String → ℚ
  min_requirement : String → ℚ
  purchase_price : String → ℚ
  beets_quota : ℚ
  extensive_form_model : Option EFModel := none

/-- The loop of Farmer.__init__ over a weather list (lines 38 to 53).
The Python local predicted_yield persists across iterations, so an
unrecognized label silently reuses the multiplier of the previous
iteration and only crashes (none here) when no recognized label has
occurred yet. -/
def yields_fold : List String → Option ℚ → Option (List (String × ℚ))
  | [], _ => some []
  | weather :: rest, prev =>
    match (predicted_yield weather).orElse (fun _ => prev) with
    | none => none
    | some m => (yields_fold rest (some m)).map (fun tail => (weather, m) :: tail)

/-- Farmer.__init__ with a list of weathers: build the per-weather
realized yield dictionary and record the fixed template. -/
def FarmerScen.init (weather_types : List String) : Option FarmerScen :=
  (yields_fold weather_types none).map fun assoc =>
    { weathers := weather_types
      crop_yield := fun weather c =>
        base_yield c * ((assoc.lookup weather).getD 0)
      total_acres := StochFarm.total_acres
      planting_cost := StochFarm.planting_cost
      selling_price := StochFarm.selling_price
      min_requirement := StochFarm.min_requirement
      purchase_price := StochFarm.purchase_price
      beets_quota := StochFarm.beets_quota }

/-- The model constructed by Farmer.build_extensive_form_model (lines
125 to 174): shared first-stage land variables, weather-indexed selling
and purchasing variables, the objective of lines 148 to 150 with its
hardcoded 1/3 weights on the second-stage sums and its unweighted
planting-cost term, and the constraint components of lines 152 to 171. -/
def extensive_form_model_of (f : FarmerScen) : EFModel :=
  { var_x := planting_crops
    var_w := f.weathers.product selling_crops
    var_y := f.weathers.product purchasing_crops
    obj := fun a =>
      (planting_crops.map (fun c => a.x c * f.planting_cost c)).sum
      + (-1/3) * ((selling_crops.map (fun c =>
          (f.weathers.map (fun weather =>
            a.w (weather, c) * f.selling_price c)).sum)).sum)
      + (1/3) * ((purchasing_crops.map (fun c =>
          (f.weathers.map (fun weather =>
            a.y (weather, c) * f.purchase_price c)).sum)).sum)
    cons := [EFCon.total_acreage_allowed]
      ++ (f.weathers.product required_crops).map
          (fun p => EFCon.minimum_requirement p.1 p.2)
      ++ f.weathers.map EFCon.sugar_beet_mass_balance
      ++ f.weathers.map EFCon.sugar_beet_quota }

/-- Interpretation of one extensive-form constraint as a proposition
over an assignment, exactly as each Pyomo constraint rule states it. -/
def EFCon.holds (f : FarmerScen) (a : EFAssign) : EFCon → Prop
  | EFCon.total_acreage_allowed =>
      (planting_crops.map (fun c => a.x c)).sum ≤ f.total_acres
  | EFCon.minimum_requirement weather c =>
      a.x c * f.crop_yield weather c + a.y (weather, c) - a.w (weather, c)
        ≥ f.min_requirement c
  | EFCon.sugar_beet_mass_balance weather =>
      a.w (weather, "beets_favorable") + a.w (weather, "beets_unfavorable")
        ≤ f.crop_yield weather "beets" * a.x "beets"
  | EFCon.sugar_beet_quota weather =>
      a.w (weather, "beets_favorable") ≤ f.beets_quota

/-- Feasibility for the extensive-form model: nonnegativity of every
declared variable plus all model constraints. -/
def efFeasible (f : FarmerScen) (a : EFAssign) : Prop :=
  (∀ c ∈ (extensive_form_model_of f).var_x, 0 ≤ a.x c) ∧
  (∀ p ∈ (extensive_form_model_of f).var_w, 0 ≤ a.w p) ∧
  (∀ p ∈ (extensive_form_model_of f).var_y, 0 ≤ a.y p) ∧
  (∀ con ∈ (extensive_form_model_of f).cons, EFCon.holds f a con)

/-- Farmer.build_extensive_form_model as a state transformer on the
instance: it attaches the newly built model and touches nothing else. -/
def FarmerScen.build_extensive_form_model (f : FarmerScen) : FarmerScen :=
  { f with extensive_form_model := some (extensive_form_model_of f) }

/-! ## mpi-sppy/farmer-3-scenarios.py
Its Farmer class records exactly the same fields as the single-weather
Farmer above (its yield lookup goes through a process-global variable,
with the same recognized labels), so the Farmer structure is reused.
Its build_deterministic_model materializes the three objective terms as
named expressions before combining them. -/

/-- The expression model.planting_cost of farmer-3-scenarios.py. -/
def model_planting_cost (f : Farmer) (a : DetAssign) : ℚ :=
  (planting_crops.map (fun c => a.x c * f.planting_cost c)).sum

/-- The expression model.selling_cost of farmer-3-scenarios.py. -/
def model_selling_cost (f : Farmer) (a : DetAssign) : ℚ :=
  (selling_crops.map (fun c => a.w c * f.selling_price c)).sum

/-- The expression model.puchasing_cost of farmer-3-scenarios.py (the
attribute name carries the spelling of the source). -/
def model_puchasing_cost (f : Farmer) (a : DetAssign) : ℚ :=
  (purchasing_crops.map (fun c => a.y c * f.purchase_price c)).sum

/-- build_deterministic_model of mpi-sppy/farmer-3-scenarios.py (lines
58 to 107): identical variable families and constraints, with the
objective assembled from the three named expressions. -/
def Sppy3_build_deterministic_model (scenario : Farmer) : DetModel :=
  { var_x := planting_crops
    var_w := selling_crops
    var_y := purchasing_crops
    obj := fun a =>
      model_planting_cost scenario a - model_selling_cost scenario a
        + model_puchasing_cost scenario a
    cons := [DetCon.total_acreage_allowed]
      ++ required_crops.map DetCon.minimum_requirement
      ++ [DetCon.sugar_beet_mass_balance, DetCon.sugar_beet_quota] }

/-! ## mpi-sppy/farmer-n-scenarios-PH.py -/

/-- The Farmer class of farmer-n-scenarios-PH.py: its constructor takes
a drawn yield multiplier and a probability, stores both without any
validation, and records the same fixed template. -/
structure FarmerPH where
  probability : ℚ
  crop_yield : String → ℚ
  total_acres : ℚ
  planting_cost : String → ℚ
  selling_price : String → ℚ
  min_requirement : String → ℚ
  purchase_price : String → ℚ
  beets_quota : ℚ

/-- Farmer.__init__ of farmer-n-scenarios-PH.py (lines 30 to 57).  The
constructor is total: every multiplier and every probability, including
nonpositive ones, is accepted unchecked. -/
def FarmerPH.init (drawn_yield probability : ℚ) : FarmerPH :=
  { probability := probability
    crop_yield := fun c => base_yield c * drawn_yield
    total_acres := StochFarm.total_acres
    planting_cost := StochFarm.planting_cost
    selling_price := StochFarm.selling_price
    min_requirement := StochFarm.min_requirement
    purchase_price := StochFarm.purchase_price
    beets_quota := StochFarm.beets_quota }

/-- The probability-normalization step of scenario_creator in
farmer-n-scenarios-PH.py (lines 129 to 143): every bin mass (a
difference of two cdf values) is divided by the accumulated total of
all bin masses. -/
def bin_probabilities (cdfs : List ℚ) : List ℚ :=
  cdfs.map (fun c => c / cdfs.sum)

/-! ## examples/news-vendor/news-vendor-sampling.py -/

/-- The probability dictionary built by Vendor.__init__ (lines 43 to
46): for each distinct sampled demand, its number of occurrences in the
demand list divided by the number of scenarios, which is the length of
the demand list.  The Python iteration over the sorted set of demands
is embedded as iteration over the deduplicated list; sorting does not
affect any sum. -/
def vendor_p (demand : List ℚ) : List ℚ :=
  demand.dedup.map (fun d => ((demand.count d : ℚ)) / (demand.length : ℚ))

/-! ## Spec-side definitions
The following definitions follow the wording of the specification, not
the source; they exist to be compared with the source-derived
definitions above. -/

/-- Spec-side objective of the extensive form: the probability-weighted
sum over scenarios of (planting cost with the shared first-stage
variables, minus that scenario selling revenue, plus that scenario
purchasing cost). -/
def spec_ef_objective (prob : String → ℚ) (f : FarmerScen) (a : EFAssign) : ℚ :=
  (f.weathers.map (fun weather => prob weather *
    ((planting_crops.map (fun c => a.x c * f.planting_cost c)).sum
      - (selling_crops.map (fun c => a.w (weather, c) * f.selling_price c)).sum
      + (purchasing_crops.map (fun c => a.y (weather, c) * f.purchase_price c)).sum))).sum

/-- Spec-side single-scenario objective with the concrete coefficients
of the worked farmer instance. -/
def spec_scenario_objective (a : DetAssign) : ℚ :=
  (a.x "wheat" * 150 + a.x "corn" * 230 + a.x "beets" * 260)
  - (a.w "wheat" * 170 + a.w "corn" * 150
      + a.w "beets_favorable" * 36 + a.w "beets_unfavorable" * 10)
  + (a.y "wheat" * 238 + a.y "corn" * 210)

/-- Spec-side constraint system of one scenario with yield multiplier
m: the four families named by the specification, with the concrete
template numbers. -/
def spec_scenario_constraints (m : ℚ) (a : DetAssign) : Prop :=
  (a.x "wheat" + a.x "corn" + a.x "beets" ≤ 500) ∧
  (a.x "wheat" * (5/2 * m) + a.y "wheat" - a.w "wheat" ≥ 200) ∧
  (a.x "corn" * (3 * m) + a.y "corn" - a.w "corn" ≥ 240) ∧
  (a.w "beets_favorable" + a.w "beets_unfavorable" ≤ (20 * m) * a.x "beets") ∧
  (a.w "beets_favorable" ≤ 6000)

/-! ## Concrete instances used by the theorems -/

def default_farmer : Farmer :=
  { weathers := "", crop_yield := fun _ => 0, total_acres := 0
    planting_cost := fun _ => 0, selling_price := fun _ => 0
    min_requirement := fun _ => 0, purchase_price := fun _ => 0
    beets_quota := 0 }

def default_scen : FarmerScen :=
  { weathers := [], crop_yield := fun _ _ => 0, total_acres := 0
    planting_cost := fun _ => 0, selling_price := fun _ => 0
    min_requirement := fun _ => 0, purchase_price := fun _ => 0
    beets_quota := 0 }

/-- The Farmer instance of the good-weather deterministic run. -/
def farmerGood : Farmer := (Farmer.init "good").getD default_farmer

/-- The instance aggregating the three weathers, as in the main block
of examples/farmer-extensive-form.py. -/
def farmer3 : FarmerScen :=
  (FarmerScen.init ["good", "fair", "bad"]).getD default_scen

/-- The instance aggregating the singleton scenario set. -/
def farmer1 : FarmerScen := (FarmerScen.init ["good"]).getD default_scen

/-- The instance aggregating the empty scenario set. -/
def farmer0 : FarmerScen := (FarmerScen.init []).getD default_scen

theorem farmerGood_init : Farmer.init "good" = some farmerGood := rfl

theorem farmer3_init :
    FarmerScen.init ["good", "fair", "bad"] = some farmer3 := rfl

theorem farmer1_init : FarmerScen.init ["good"] = some farmer1 := rfl

theorem farmer0_init : FarmerScen.init [] = some farmer0 := rfl

/-- A concrete extensive-form assignment: three tons of wheat sold in
the good scenario, everything else zero. -/
def ca : EFAssign :=
  { x := fun _ => 0
    w := fun p => if p.1 = "good" then (if p.2 = "wheat" then 3 else 0) else 0
    y := fun _ => 0 }

/-- The all-ones extensive-form assignment. -/
def unit_ef_assign : EFAssign :=
  { x := fun _ => 1, w := fun _ => 1, y := fun _ => 1 }

/-- The all-ones deterministic assignment. -/
def unit_det_assign : DetAssign :=
  { x := fun _ => 1, w := fun _ => 1, y := fun _ => 1 }

/-- Translation of an extensive-form assignment into the deterministic
assignment of one scenario: read the second-stage variables at that
scenario index. -/
def det_assign_of (weather : String) (a : EFAssign) : DetAssign :=
  { x := a.x
    w := fun c => a.w (weather, c)
    y := fun c => a.y (weather, c) }

/-! ## Helper lemmas on list sums -/

theorem list_sum_map_sub {α : Type} (l : List α) (f g : α → ℚ) :
    (l.map (fun a => f a - g a)).sum = (l.map f).sum - (l.map g).sum := by
  induction l with
  | nil => simp
  | cons a t ih => simp only [List.map_cons, List.sum_cons, ih]; ring

theorem list_sum_map_const {α : Type} (l : List α) (c : ℚ) :
    (l.map (fun _ => c)).sum = (l.length : ℚ) * c := by
  induction l with
  | nil => simp
  | cons a t ih => simp [ih]; ring

theorem list_sum_comm {α β : Type} (l1 : List α) (l2 : List β) (g : α → β → ℚ) :
    (l1.map (fun a => (l2.map (fun b => g a b)).sum)).sum
      = (l2.map (fun b => (l1.map (fun a => g a b)).sum)).sum := by
  induction l1 with
  | nil => simp
  | cons a t ih =>
    simp only [List.map_cons, List.sum_cons, ih]
    rw [List.sum_map_add]

/-- Inversion of Farmer.init at a recognized label. -/
theorem Farmer_init_eq (lab : String) (m : ℚ) (h : predicted_yield lab = some m) :
    Farmer.init lab = some
      { weathers := lab
        crop_yield := fun c => base_yield c * m
        total_acres := total_acres
        planting_cost := planting_cost
        selling_price := selling_price
        min_requirement := min_requirement
        purchase_price := purchase_price
        beets_quota := beets_quota } := by
  unfold Farmer.init
  rw [h]
  rfl

/-- Inversion of FarmerScen.init at a singleton recognized label. -/
theorem FarmerScen_init_single_eq (lab : String) (m : ℚ)
    (h : predicted_yield lab = some m) :
    FarmerScen.init [lab] = some
      { weathers := [lab]
        crop_yield := fun weather c =>
          base_yield c * ((([(lab, m)] : List (String × ℚ)).lookup weather).getD 0)
        total_acres := total_acres
        planting_cost := planting_cost
        selling_price := selling_price
        min_requirement := min_requirement
        purchase_price := purchase_price
        beets_quota := beets_quota } := by
  unfold FarmerScen.init yields_fold
  rw [h]
  rfl

/-! ## C1 -/

/-- C1 (amended).  The extensive-form objective equals the
probability-weighted sum over scenarios of (planting cost with the
shared first-stage variables, minus scenario selling revenue, plus
scenario purchasing cost) exactly for scenario sets of three scenarios
weighted 1/3 each: the aggregator hardcodes the weight 1/3 and leaves
the planting-cost term outside the weighted sum, so the identity relies
on the weights summing to one over exactly three scenarios. -/
theorem C1_ef_objective_prob_weighted (f : FarmerScen)
    (h : f.weathers.length = 3) (a : EFAssign) :
    (extensive_form_model_of f).obj a
      = spec_ef_objective (fun _ => 1/3) f a := by
  simp only [extensive_form_model_of, spec_ef_objective]
  rw [List.sum_map_mul_left]
  simp only [List.sum_map_add, list_sum_map_sub, list_sum_map_const, h]
  rw [list_sum_comm f.weathers selling_crops
        (fun weather c => a.w (weather, c) * f.selling_price c),
      list_sum_comm f.weathers purchasing_crops
        (fun weather c => a.y (weather, c) * f.purchase_price c)]
  push_cast
  ring

/-- C1 counterexample.  For the singleton scenario set (whose only
probability summing to one is 1), the aggregate objective does not
equal the probability-weighted sum of scenario objectives: at the
assignment selling three tons of wheat, the built objective is -170
(weight 1/3 hardcoded) while the claimed expression is -510. -/
theorem C1_counterexample :
    (extensive_form_model_of farmer1).obj ca
      ≠ spec_ef_objective (fun _ => 1) farmer1 ca := by
  simp [extensive_form_model_of, spec_ef_objective, farmer1, default_scen,
    FarmerScen.init, yields_fold, predicted_yield, ca, planting_crops,
    selling_crops, purchasing_crops, StochFarm.planting_cost,
    StochFarm.selling_price, StochFarm.purchase_price]
  norm_num

/-- Witness for C1: the three-weather instance satisfies the length
hypothesis and the amended identity at the all-ones assignment. -/
theorem C1_witness :
    farmer3.weathers.length = 3 ∧
    (extensive_form_model_of farmer3).obj unit_ef_assign
      = spec_ef_objective (fun _ => 1/3) farmer3 unit_ef_assign :=
  ⟨rfl, C1_ef_objective_prob_weighted farmer3 rfl unit_ef_assign⟩

/-! ## C2 -/

/-- C2 (amended).  Aggregating the scenario set containing only one
recognized scenario yields a model whose feasible region coincides with
the deterministic model of that scenario under the canonical variable
identification; the objectives however agree only in the first-stage
planting term, because the aggregator weights the second-stage terms by
its hardcoded 1/3 rather than by the scenario probability 1. -/
theorem C2_single_scenario (lab : String) (m : ℚ)
    (hm : predicted_yield lab = some m)
    (fd : Farmer) (hd : Farmer.init lab = some fd)
    (fs : FarmerScen) (hs : FarmerScen.init [lab] = some fs)
    (a : EFAssign) :
    (efFeasible fs a ↔ detFeasible fd (det_assign_of lab a)) ∧
    (extensive_form_model_of fs).obj a
      = model_planting_cost fd (det_assign_of lab a)
        + (1/3) * (model_puchasing_cost fd (det_assign_of lab a)
            - model_selling_cost fd (det_assign_of lab a)) := by
  rw [Farmer_init_eq lab m hm] at hd
  rw [FarmerScen_init_single_eq lab m hm] at hs
  injection hd with hd
  injection hs with hs
  subst hd
  subst hs
  constructor
  · simp only [efFeasible, detFeasible, extensive_form_model_of,
      deterministic_model_of, EFCon.holds, DetCon.holds, det_assign_of,
      planting_crops, selling_crops, purchasing_crops, required_crops,
      List.product, List.lookup]
    simp [EFCon.holds, DetCon.holds]
  · simp [extensive_form_model_of, det_assign_of, model_planting_cost,
      model_selling_cost, model_puchasing_cost, planting_crops,
      selling_crops, purchasing_crops, List.lookup]
    ring

/-- C2 counterexample.  For the singleton good-weather scenario set,
the extensive-form objective differs from the deterministic objective
at the assignment selling three tons of wheat: -170 against -510, so
the two models do not coincide. -/
theorem C2_counterexample :
    (extensive_form_model_of farmer1).obj ca
      ≠ (deterministic_model_of farmerGood).obj (det_assign_of "good" ca) := by
  simp [extensive_form_model_of, deterministic_model_of, farmer1, farmerGood,
    default_farmer, default_scen, Farmer.init, FarmerScen.init, yields_fold,
    predicted_yield, ca, det_assign_of, planting_crops, selling_crops,
    purchasing_crops, StochFarm.planting_cost, StochFarm.selling_price,
    StochFarm.purchase_price]
  norm_num

/-- Witness for C2: the amended statement applied to the good-weather
singleton at the all-ones assignment. -/
theorem C2_witness :
    (extensive_form_model_of farmer1).obj unit_ef_assign
      = model_planting_cost farmerGood (det_assign_of "good" unit_ef_assign)
        + (1/3) * (model_puchasing_cost farmerGood
              (det_assign_of "good" unit_ef_assign)
            - model_selling_cost farmerGood
              (det_assign_of "good" unit_ef_assign)) :=
  (C2_single_scenario "good" (6/5) rfl farmerGood farmerGood_init
    farmer1 farmer1_init unit_ef_assign).2

/-! ## C3 -/

/-- C3 counterexample.  In the three-scenario model the constraints
other than the shared total-acreage constraint number 12, not 15: the
total-acreage constraint is declared once without a scenario index, so
no per-scenario copy of it exists. -/
theorem C3_counterexample :
    ((extensive_form_model_of farmer3).cons.filter
        (fun con => con != EFCon.total_acreage_allowed)).length ≠ 15 := by
  decide

/-- C3 (amended).  The good/fair/bad extensive form has exactly 3
first-stage land variables, 12 scenario-indexed selling variables, 6
scenario-indexed purchasing variables, 12 scenario-indexed constraints
(2 minimum-requirement, 1 mass-balance and 1 quota per scenario) and 1
shared total-acreage constraint, 13 constraints in total. -/
theorem C3_model_counts :
    (extensive_form_model_of farmer3).var_x.length = 3 ∧
    (extensive_form_model_of farmer3).var_w.length = 12 ∧
    (extensive_form_model_of farmer3).var_y.length = 6 ∧
    ((extensive_form_model_of farmer3).cons.filter
        (fun con => con != EFCon.total_acreage_allowed)).length = 12 ∧
    ((extensive_form_model_of farmer3).cons.filter
        (fun con => con == EFCon.total_acreage_allowed)).length = 1 ∧
    (extensive_form_model_of farmer3).cons.length = 13 := by
  decide

/-! ## C6 -/

/-- C6 counterexample.  Aggregating the empty scenario collection does
not fail: the construction returns an instance and its extensive-form
model carries exactly one constraint. -/
theorem C6_counterexample :
    (FarmerScen.init []).map
      (fun f => (extensive_form_model_of f).cons.length) = some 1 := by
  decide

/-- C6 (amended).  The aggregate operation applied to the empty
scenario collection raises no error at all: it produces a degenerate
model with no second-stage variables, only the shared total-acreage
constraint, and an objective consisting of the planting cost alone. -/
theorem C6_empty_scenario_set :
    FarmerScen.init [] = some farmer0 ∧
    (extensive_form_model_of farmer0).var_w = [] ∧
    (extensive_form_model_of farmer0).var_y = [] ∧
    (extensive_form_model_of farmer0).cons = [EFCon.total_acreage_allowed] ∧
    ∀ a : EFAssign, (extensive_form_model_of farmer0).obj a
      = (planting_crops.map (fun c => a.x c * farmer0.planting_cost c)).sum := by
  refine ⟨farmer0_init, rfl, rfl, rfl, ?_⟩
  intro a
  simp [extensive_form_model_of, farmer0, default_scen, FarmerScen.init,
    yields_fold, selling_crops, purchasing_crops]

/-! ## C4 -/

/-- C4.  For every recognized scenario, the deterministic model built
from it carries the objective planting cost minus selling revenue plus
purchasing cost (the three named linear terms of the mpi-sppy variant,
whose builder produces the identical model), and its constraint system
is exactly the four families stated by the specification: total land,
per-required-crop minimum requirement with the scenario yield, beet
mass balance, and beet quota. -/
theorem C4_deterministic_model (lab : String) (m : ℚ)
    (hm : predicted_yield lab = some m)
    (fd : Farmer) (hd : Farmer.init lab = some fd) :
    Sppy3_build_deterministic_model fd = deterministic_model_of fd ∧
    ∀ a : DetAssign,
      ((deterministic_model_of fd).obj a
        = model_planting_cost fd a - model_selling_cost fd a
          + model_puchasing_cost fd a) ∧
      ((deterministic_model_of fd).obj a = spec_scenario_objective a) ∧
      ((∀ con ∈ (deterministic_model_of fd).cons, DetCon.holds fd a con)
        ↔ spec_scenario_constraints m a) := by
  rw [Farmer_init_eq lab m hm] at hd
  injection hd with hd
  subst hd
  refine ⟨rfl, fun a => ⟨rfl, ?_, ?_⟩⟩
  · simp [deterministic_model_of, spec_scenario_objective, planting_crops,
      selling_crops, purchasing_crops, StochFarm.planting_cost,
      StochFarm.selling_price, StochFarm.purchase_price]
    ring
  · simp [deterministic_model_of, DetCon.holds, spec_scenario_constraints,
      planting_crops, required_crops, purchasing_crops, base_yield,
      StochFarm.min_requirement, StochFarm.beets_quota,
      StochFarm.total_acres]
    intro h1 h2 h3 h4
    constructor <;> intro h5 <;> linarith

/-- Witness for C4: the good-weather scenario at the all-ones
assignment. -/
theorem C4_witness :
    Sppy3_build_deterministic_model farmerGood
        = deterministic_model_of farmerGood ∧
    (deterministic_model_of farmerGood).obj unit_det_assign
        = spec_scenario_objective unit_det_assign :=
  ⟨(C4_deterministic_model "good" (6/5) rfl farmerGood farmerGood_init).1,
   ((C4_deterministic_model "good" (6/5) rfl farmerGood
      farmerGood_init).2 unit_det_assign).2.1⟩

/-! ## C5 -/

/-- C5 counterexample.  The only constructor that takes a probability
(farmer-n-scenarios-PH.py) accepts a nonpositive probability without
any error: constructing with probability -1 succeeds and stores -1,
with the realized parameters populated as usual, contradicting the
claim that construction fails whenever the probability is nonpositive. -/
theorem C5_counterexample :
    (FarmerPH.init 1 (-1)).probability = -1 ∧
    (FarmerPH.init 1 (-1)).crop_yield "wheat" = 5/2 := by
  refine ⟨rfl, ?_⟩
  simp [FarmerPH.init, base_yield]

/-- C5 (amended).  Construction with an unrecognized weather label
fails, though with an unhandled unbound-value crash rather than a
dedicated InvalidScenarioError; for every recognized label it succeeds
and yields that label's realized parameters; and no probability
validation exists: the constructor that receives a probability stores
any value, including nonpositive ones, unchecked. -/
theorem C5_constructor_validation :
    (∀ lab : String, predicted_yield lab = none → Farmer.init lab = none) ∧
    (∀ lab : String, ∀ m : ℚ, predicted_yield lab = some m →
      ∃ fd, Farmer.init lab = some fd ∧
        fd.crop_yield "wheat" = 5/2 * m ∧
        fd.crop_yield "corn" = 3 * m ∧
        fd.crop_yield "beets" = 20 * m) ∧
    (∀ dy p : ℚ, (FarmerPH.init dy p).probability = p) := by
  refine ⟨?_, ?_, fun _ _ => rfl⟩
  · intro lab h
    unfold Farmer.init
    rw [h]
    rfl
  · intro lab m h
    refine ⟨_, Farmer_init_eq lab m h, ?_, ?_, ?_⟩ <;> simp [base_yield]

/-- Witness for C5: an unrecognized label fails, the good label
succeeds with its realized yields, and a negative probability is
stored unchecked. -/
theorem C5_witness :
    Farmer.init "sunny" = none ∧
    farmerGood.crop_yield "wheat" = 5/2 * (6/5) ∧
    (FarmerPH.init 1 (-1)).probability = -1 := by
  refine ⟨C5_constructor_validation.1 "sunny" rfl, ?_,
    C5_constructor_validation.2.2 1 (-1)⟩
  obtain ⟨fd, hfd, hw, _, _⟩ :=
    C5_constructor_validation.2.1 "good" (6/5) rfl
  rw [farmerGood_init] at hfd
  injection hfd with hfd
  rw [hfd]
  exact hw

/-! ## C7 -/

/-- C7.  Both normalization steps produce probabilities summing to one
(exactly, in rational arithmetic, hence within any tolerance): dividing
every bin mass by the accumulated total of all bin masses, for any
nonempty list of positive masses, and dividing each distinct demand
count by the sample count, for any nonempty demand sample. -/
theorem C7_probabilities_sum_to_one :
    (∀ cdfs : List ℚ, cdfs ≠ [] → (∀ c ∈ cdfs, 0 < c) →
      (bin_probabilities cdfs).sum = 1) ∧
    (∀ demand : List ℚ, demand ≠ [] → (vendor_p demand).sum = 1) := by
  constructor
  · intro cdfs hne hpos
    have htot : 0 < cdfs.sum := List.sum_pos cdfs hpos hne
    unfold bin_probabilities
    simp only [div_eq_mul_inv]
    rw [List.sum_map_mul_right]
    simp only [List.map_id']
    exact mul_inv_cancel₀ (ne_of_gt htot)
  · intro demand hne
    have hlen : ((demand.length : ℚ)) ≠ 0 :=
      Nat.cast_ne_zero.mpr (fun h0 => hne (List.length_eq_zero.mp h0))
    unfold vendor_p
    simp only [div_eq_mul_inv]
    rw [List.sum_map_mul_right]
    have h1 : (demand.dedup.map fun d => ((demand.count d : ℚ))).sum
        = ((demand.length : ℚ)) := by
      rw [show (fun d => ((demand.count d : ℚ)))
            = (fun n : ℕ => ((n : ℚ))) ∘ (fun d => demand.count d) from rfl,
        ← List.map_map, ← Nat.cast_list_sum,
        List.sum_map_count_dedup_eq_length]
    rw [h1]
    exact mul_inv_cancel₀ hlen

/-- Witness for C7: the bin normalization at masses 1/2 and 1/3 and the
demand normalization at the sample 1, 2, 1. -/
theorem C7_witness :
    (bin_probabilities [ (1:ℚ)/2, 1/3 ]).sum = 1 ∧
    (vendor_p [ (1:ℚ), 2, 1 ]).sum = 1 :=
  ⟨C7_probabilities_sum_to_one.1 _ (by simp) (by norm_num),
   C7_probabilities_sum_to_one.2 _ (by simp)⟩

/-! ## C8 -/

/-- C8.  The deterministic-model builder is a pure function of the
scenario data and the template: any two Farmer instances agreeing on
the realized yields and all template fields (they may differ in other
state, such as a previously attached model) produce literally the same
model, and the same constraint semantics.  In particular two builds
from the same instance coincide. -/
theorem C8_build_deterministic (f1 f2 : Farmer)
    (hy : f1.crop_yield = f2.crop_yield)
    (ha : f1.total_acres = f2.total_acres)
    (hp : f1.planting_cost = f2.planting_cost)
    (hs : f1.selling_price = f2.selling_price)
    (hm : f1.min_requirement = f2.min_requirement)
    (hq : f1.purchase_price = f2.purchase_price)
    (hb : f1.beets_quota = f2.beets_quota) :
    Sppy3_build_deterministic_model f1 = Sppy3_build_deterministic_model f2 ∧
    ∀ (a : DetAssign) (con : DetCon),
      (DetCon.holds f1 a con ↔ DetCon.holds f2 a con) := by
  constructor
  · unfold Sppy3_build_deterministic_model
    congr 1
    funext a
    unfold model_planting_cost model_selling_cost model_puchasing_cost
    rw [hp, hs, hq]
  · intro a con
    cases con with
    | total_acreage_allowed =>
      unfold DetCon.holds
      rw [ha]
    | minimum_requirement c =>
      unfold DetCon.holds
      rw [hy, hm]
    | sugar_beet_mass_balance =>
      unfold DetCon.holds
      rw [hy]
    | sugar_beet_quota =>
      unfold DetCon.holds
      rw [hb]

/-- Witness for C8: the good-weather instance against the same instance
with a model already attached; the builds coincide. -/
theorem C8_witness :
    Sppy3_build_deterministic_model farmerGood
      = Sppy3_build_deterministic_model
          farmerGood.build_deterministic_model ∧
    (DetCon.holds farmerGood unit_det_assign DetCon.total_acreage_allowed
      ↔ DetCon.holds farmerGood.build_deterministic_model unit_det_assign
          DetCon.total_acreage_allowed) :=
  ⟨(C8_build_deterministic farmerGood farmerGood.build_deterministic_model
      rfl rfl rfl rfl rfl rfl rfl).1,
   (C8_build_deterministic farmerGood farmerGood.build_deterministic_model
      rfl rfl rfl rfl rfl rfl rfl).2 unit_det_assign
      DetCon.total_acreage_allowed⟩

/-! ## C9 -/

/-- C9.  The discrete weather labels map to the fixed multipliers good
1.2, fair 1 and bad 0.8, applied to the fair-weather base yields wheat
2.5, corn 3 and beets 20; in particular the good-weather realized wheat
yield is 3. -/
theorem C9_weather_multipliers :
    predicted_yield "good" = some (6/5) ∧
    predicted_yield "fair" = some 1 ∧
    predicted_yield "bad" = some (4/5) ∧
    base_yield "wheat" = 5/2 ∧
    base_yield "corn" = 3 ∧
    base_yield "beets" = 20 ∧
    farmerGood.crop_yield "wheat" = 3 ∧
    (Farmer.init "fair").map (fun f => f.crop_yield "corn") = some 3 ∧
    (Farmer.init "bad").map (fun f => f.crop_yield "beets") = some 16 := by
  refine ⟨rfl, rfl, rfl, by simp [base_yield], by simp [base_yield],
    by simp [base_yield], ?_, ?_, ?_⟩ <;>
    simp [farmerGood, default_farmer, Farmer.init, predicted_yield,
      base_yield] <;>
    norm_num

/-! ## C10 -/

/-- C10.  Building a model never mutates the problem template: both
builders return the instance with every template field unchanged and
only the model slot newly filled with the constructed model. -/
theorem C10_build_frame (f : Farmer) (g : FarmerScen) :
    (f.build_deterministic_model.weathers = f.weathers ∧
     f.build_deterministic_model.crop_yield = f.crop_yield ∧
     f.build_deterministic_model.total_acres = f.total_acres ∧
     f.build_deterministic_model.planting_cost = f.planting_cost ∧
     f.build_deterministic_model.selling_price = f.selling_price ∧
     f.build_deterministic_model.min_requirement = f.min_requirement ∧
     f.build_deterministic_model.purchase_price = f.purchase_price ∧
     f.build_deterministic_model.beets_quota = f.beets_quota ∧
     f.build_deterministic_model.deterministic_model
        = some (deterministic_model_of f)) ∧
    (g.build_extensive_form_model.weathers = g.weathers ∧
     g.build_extensive_form_model.crop_yield = g.crop_yield ∧
     g.build_extensive_form_model.total_acres = g.total_acres ∧
     g.build_extensive_form_model.planting_cost = g.planting_cost ∧
     g.build_extensive_form_model.selling_price = g.selling_price ∧
     g.build_extensive_form_model.min_requirement = g.min_requirement ∧
     g.build_extensive_form_model.purchase_price = g.purchase_price ∧
     g.build_extensive_form_model.beets_quota = g.beets_quota ∧
     g.build_extensive_form_model.extensive_form_model
        = some (extensive_form_model_of g)) :=
  ⟨⟨rfl, rfl, rfl, rfl, rfl, rfl, rfl, rfl, rfl⟩,
   ⟨rfl, rfl, rfl, rfl, rfl, rfl, rfl, rfl, rfl⟩⟩

end StochFarm
